import Mathlib

/-!
Shallow embedding of the DataAnalyticsAgent repository (src/scr/agent.py,
src/scr/memory.py, src/scr/tools/*.py, src/scr/executor.py).

JSON-decoded model responses, tool parameters and tool results are Python
values; we model them with an inductive `PyVal` (None, bool, int, str, list,
dict with string keys, which is what `json.loads` produces).  Python
exceptions are modelled by `PyErr` (a kind such as "RuntimeError" plus the
`str(e)` message), and fallible Python code by `Except PyErr`.  Floating
point delays are modelled by exact rationals (the code only multiplies the
base delay by powers of two).  I/O (printing, logging, `time.sleep`) is
modelled by its control-flow effects only: `print`/logging formatting that
can raise is modelled by the raise behaviour, and the sleeps performed by
the retry loop are returned as an explicit list of delays.
-/

/-- A Python value as produced by `json.loads` / returned by tools. -/
inductive PyVal where
  | vNone
  | vBool (b : Bool)
  | vInt (n : Int)
  | vStr (s : String)
  | vList (xs : List PyVal)
  | vDict (kvs : List (String × PyVal))

/-- A Python exception: its class name and its `str(e)` message. -/
structure PyErr where
  kind : String
  msg : String
deriving DecidableEq

def runtimeErr (m : String) : PyErr := ⟨"RuntimeError", m⟩

def typeErr (m : String) : PyErr := ⟨"TypeError", m⟩

def attrErr (m : String) : PyErr := ⟨"AttributeError", m⟩

def keyErr (m : String) : PyErr := ⟨"KeyError", m⟩

/-- A single-quote character, used by Python `repr` of strings. -/
def sQuote : String := String.singleton (Char.ofNat 39)

mutual
/-- Python `repr` of a value (mutually with list/dict element rendering).
Escaping inside string literals is not modelled: the strings appearing in
the verified runs contain no quotes or backslashes. -/
def pyRepr : PyVal → String
  | .vNone => "None"
  | .vBool b => if b then "True" else "False"
  | .vInt n => toString n
  | .vStr s => sQuote ++ s ++ sQuote
  | .vList xs => "[" ++ pyReprList xs ++ "]"
  | .vDict kvs => "\x7b" ++ pyReprDict kvs ++ "\x7d"

def pyReprList : List PyVal → String
  | [] => ""
  | [x] => pyRepr x
  | x :: y :: xs => pyRepr x ++ ", " ++ pyReprList (y :: xs)

def pyReprDict : List (String × PyVal) → String
  | [] => ""
  | [(k, v)] => sQuote ++ k ++ sQuote ++ ": " ++ pyRepr v
  | (k, v) :: p :: kvs => sQuote ++ k ++ sQuote ++ ": " ++ pyRepr v ++ ", " ++ pyReprDict (p :: kvs)
end

/-- Python `str` of a value: the string itself for `str`, `repr` otherwise
(as in f-string interpolation of dicts, lists, numbers, None, bools). -/
def pyStrTop : PyVal → String
  | .vStr s => s
  | v => pyRepr v

/-- Python `x == "lit"` where one side is a string literal: true exactly for
an equal string (no other JSON type compares equal to a `str`). -/
def pyEqStr (v : PyVal) (s : String) : Bool :=
  match v with
  | .vStr t => t == s
  | _ => false

/-- Python truthiness of a value. -/
def pyTruthy : PyVal → Bool
  | .vNone => false
  | .vBool b => b
  | .vInt n => n != 0
  | .vStr s => s != ""
  | .vList xs => !xs.isEmpty
  | .vDict kvs => !kvs.isEmpty

/-- Key membership in an association list (Python dict key membership). -/
def hasKey (kvs : List (String × PyVal)) (k : String) : Bool :=
  kvs.any (fun p => p.1 == k)

/-- Python `v.get(key, default)`: only dicts have a `.get` attribute; every
other value raises `AttributeError`. -/
def pyGet (v : PyVal) (k : String) (dflt : PyVal) : Except PyErr PyVal :=
  match v with
  | .vDict kvs => .ok ((kvs.lookup k).getD dflt)
  | _ => .error (attrErr ("object has no attribute " ++ sQuote ++ "get" ++ sQuote))

/-- Python `key in v` for a string key: dict key membership, list element
equality, substring test on strings; `TypeError` on non-iterables. -/
def pyContains (v : PyVal) (k : String) : Except PyErr Bool :=
  match v with
  | .vDict kvs => .ok (hasKey kvs k)
  | .vList xs => .ok (xs.any (fun x => pyEqStr x k))
  | .vStr s => .ok (decide (k.data <:+: s.data))
  | _ => .error (typeErr "argument is not iterable")

/-- Python `v[key]` for a string key. -/
def pyGetItem (v : PyVal) (k : String) : Except PyErr PyVal :=
  match v with
  | .vDict kvs =>
    match kvs.lookup k with
    | some w => .ok w
    | none => .error (keyErr (sQuote ++ k ++ sQuote))
  | .vList _ => .error (typeErr "list indices must be integers or slices, not str")
  | .vStr _ => .error (typeErr "string indices must be integers")
  | _ => .error (typeErr "object is not subscriptable")

/-- Replace the value at an existing key in place, else append (Python dict
item assignment preserves insertion order). -/
def dictSet (kvs : List (String × PyVal)) (k : String) (v : PyVal) : List (String × PyVal) :=
  if hasKey kvs k then kvs.map (fun p => if p.1 == k then (k, v) else p)
  else kvs ++ [(k, v)]

/-- Python `v[key] = w` for a string key: only dicts accept it. -/
def pySetItem (v : PyVal) (k : String) (w : PyVal) : Except PyErr PyVal :=
  match v with
  | .vDict kvs => .ok (.vDict (dictSet kvs k w))
  | .vList _ => .error (typeErr "list indices must be integers or slices, not str")
  | .vStr _ => .error (typeErr "str object does not support item assignment")
  | _ => .error (typeErr "object does not support item assignment")

/-- Whether a value can be used as a Python dict-membership probe (lists and
dicts are unhashable and raise `TypeError` when used as keys). -/
def hashableVal : PyVal → Bool
  | .vList _ => false
  | .vDict _ => false
  | _ => true

/-- Python `s.lower()` (character-wise lowering of the string's chars). -/
def strLower (s : String) : String := (s.data.map Char.toLower).asString

/-- Substring containment as a decidable proposition. -/
def containsStr (s pat : String) : Prop := pat.data <:+: s.data

instance (s pat : String) : Decidable (containsStr s pat) :=
  inferInstanceAs (Decidable (pat.data <:+: s.data))

/-- Substring containment as a Bool (Python `pat in s`). -/
def containsSub (s pat : String) : Bool := decide (containsStr s pat)

/-- Python `s[:n]` on a string. -/
def takeChars (s : String) (n : Nat) : String := (s.data.take n).asString

/-! ## Conversation memory (src/scr/memory.py) -/

/-- A turn as stored by `ConversationMemory.add_turn`: the `thought`,
`action` and `parameters` come straight from the parsed model response (so
they are arbitrary Python values), the `result` is the summary string. -/
structure Turn where
  query : String
  thought : PyVal
  action : PyVal
  params : PyVal
  result : String

/-- `ConversationMemory`: a `deque(maxlen=max_turns)` of turns. -/
structure ConversationMemory where
  max_turns : Nat
  turns : List Turn

/-- A fresh `ConversationMemory(max_turns)` (default argument 50). -/
def ConversationMemory.mkEmpty (maxTurns : Nat) : ConversationMemory :=
  ⟨maxTurns, []⟩

/-- `add_turn`: `deque(maxlen=c).append` pushes on the right and discards
from the left whatever exceeds the capacity. -/
def ConversationMemory.add_turn (m : ConversationMemory) (t : Turn) : ConversationMemory :=
  let l := m.turns ++ [t]
  ⟨m.max_turns, l.drop (l.length - m.max_turns)⟩

/-- `clear`. -/
def ConversationMemory.clear (m : ConversationMemory) : ConversationMemory :=
  ⟨m.max_turns, []⟩

/-- The Python slice `list(turns)[-last_n:]`.  For `last_n = 0` the slice is
`[-0:] = [0:]`, i.e. the whole list; for `last_n >= 1` it is the last
`min(last_n, len)` elements. -/
def recentSel (turns : List Turn) (lastN : Nat) : List Turn :=
  if lastN = 0 then turns else turns.drop (turns.length - lastN)

/-- `str(turn['thought'][:200])`: slicing is defined on strings and lists
and raises `TypeError` on every other value. -/
def pySlice200 (v : PyVal) : Except PyErr String :=
  match v with
  | .vStr s => .ok (takeChars s 200)
  | .vList xs => .ok (pyRepr (.vList (xs.take 200)))
  | _ => .error (typeErr "object is not subscriptable with a slice")

/-- One rendered turn of `get_recent_context`. -/
def renderTurn (i : Nat) (t : Turn) : Except PyErr String :=
  match pySlice200 t.thought with
  | .error e => .error e
  | .ok th =>
    .ok ("**Turn " ++ toString i ++ ":**\n- Thought: " ++ th ++ "...\n- Action: "
      ++ pyStrTop t.action ++ "\n- Result: " ++ takeChars t.result 300 ++ "...\n\n")

/-- Render the selected turns, numbering them from `i`. -/
def renderTurns (i : Nat) : List Turn → Except PyErr String
  | [] => .ok ""
  | t :: ts =>
    match renderTurn i t with
    | .error e => .error e
    | .ok s =>
      match renderTurns (i + 1) ts with
      | .error e => .error e
      | .ok rest => .ok (s ++ rest)

/-- The sentinel returned when no turns are stored. -/
def noHistorySentinel : String := "## Recent Context\n\nNo previous conversation."

/-- `get_recent_context(last_n)`: sentinel when empty, otherwise the header
followed by the rendering of `list(turns)[-last_n:]`. -/
def ConversationMemory.get_recent_context (m : ConversationMemory) (lastN : Nat) :
    Except PyErr String :=
  if m.turns.isEmpty then .ok noHistorySentinel
  else
    match renderTurns 1 (recentSel m.turns lastN) with
    | .error e => .error e
    | .ok body => .ok ("## Recent Context\n\n" ++ body)

/-! ## Model gateway (src/scr/agent.py, `_call_llm` and `_call_llm_with_retry`)

The Gemini network call, `response.text` and the JSON decoding with its
markdown-fence fallback are external I/O; they are modelled by their
outcome: either a raised exception (API failure, or the `Invalid JSON` /
`Failed to parse` RuntimeErrors of the parse fallback) or the decoded JSON
value handed to the validation code of `_call_llm`. -/

/-- Validation step of `_call_llm`: require `thought` and `action`. -/
def callLLMValidate (parsed : PyVal) : Except PyErr Bool :=
  match pyContains parsed "thought" with
  | .error e => .error e
  | .ok hasThought =>
    if !hasThought then .ok false
    else
      match pyContains parsed "action" with
      | .error e => .error e
      | .ok hasAction => .ok hasAction

/-- The `DONE` special-casing of `_call_llm`: copy a top-level `answer` into
`parameters` when `parameters` lacks one (mutating the parsed response). -/
def callLLMDone (parsed : PyVal) : Except PyErr PyVal :=
  match pyGetItem parsed "action" with
  | .error e => .error e
  | .ok act =>
    if pyEqStr act "DONE" then
      match pyGetItem parsed "parameters" with
      | .error e => .error e
      | .ok ps =>
        match pyContains ps "answer" with
        | .error e => .error e
        | .ok hasAns =>
          if hasAns then .ok parsed
          else
            match pyContains parsed "answer" with
            | .error e => .error e
            | .ok hasTop =>
              if !hasTop then .ok parsed
              else
                match pyGetItem parsed "answer" with
                | .error e => .error e
                | .ok ans =>
                  match pySetItem ps "answer" ans with
                  | .error e => .error e
                  | .ok ps2 => pySetItem parsed "parameters" ps2
    else .ok parsed

/-- Body of the `try` block of `_call_llm` after the JSON decode. -/
def callLLMInner (parsed : PyVal) : Except PyErr PyVal :=
  match callLLMValidate parsed with
  | .error e => .error e
  | .ok ok =>
    if !ok then .error (runtimeErr ("Missing fields: " ++ pyStrTop parsed))
    else
      match pyContains parsed "parameters" with
      | .error e => .error e
      | .ok hasParams =>
        match (if hasParams then (.ok parsed : Except PyErr PyVal)
               else pySetItem parsed "parameters" (.vDict [])) with
        | .error e => .error e
        | .ok parsed2 => callLLMDone parsed2

/-- `_call_llm`: any exception of the body is caught and re-raised as
`RuntimeError("LLM error: " + str(e))`. -/
def call_llm (raw : Except PyErr PyVal) : Except PyErr PyVal :=
  match (match raw with
         | .error e => .error e
         | .ok parsed => callLLMInner parsed : Except PyErr PyVal) with
  | .ok v => .ok v
  | .error e => .error (runtimeErr ("LLM error: " ++ e.msg))

/-- The rate-limit classification of `_call_llm_with_retry`: substring match
on the lowercased exception message. -/
def isRetryable (msg : String) : Bool :=
  let m := strLower msg
  containsSub m "429" || containsSub m "quota" || containsSub m "rate limit"

/-- Message of the RuntimeError raised when the retry budget is exhausted. -/
def rateLimitExhaustedMsg (maxRetries : Nat) : String :=
  "Rate limit exceeded after " ++ toString maxRetries ++ " attempts. Please wait and try again."

/-- Message of the RuntimeError after the `for` loop (reachable only with
`max_retries = 0`). -/
def noAttemptsMsg : String := "Failed to call LLM after all retries"

/-- The `for attempt in range(max_retries)` loop of `_call_llm_with_retry`,
from attempt number `attempt` with `fuel` loop iterations left.  Returns the
outcome, the list of backoff sleeps performed (each `retry_delay * 2 **
attempt`), and the number of attempts made. -/
def retryFrom (retryDelay : ℚ) (maxRetries : Nat) (oracle : Nat → Except PyErr PyVal) :
    Nat → Nat → Except PyErr PyVal × List ℚ × Nat
  | _attempt, 0 => (.error (runtimeErr noAttemptsMsg), [], 0)
  | attempt, fuel + 1 =>
    match call_llm (oracle attempt) with
    | .ok v => (.ok v, [], 1)
    | .error e =>
      if isRetryable e.msg then
        if attempt + 1 < maxRetries then
          let rest := retryFrom retryDelay maxRetries oracle (attempt + 1) fuel
          (rest.1, retryDelay * 2 ^ attempt :: rest.2.1, rest.2.2 + 1)
        else (.error (runtimeErr (rateLimitExhaustedMsg maxRetries)), [], 1)
      else (.error e, [], 1)

/-- `_call_llm_with_retry`: `oracle a` is the raw outcome of attempt `a`. -/
def call_llm_with_retry (retryDelay : ℚ) (maxRetries : Nat)
    (oracle : Nat → Except PyErr PyVal) : Except PyErr PyVal × List ℚ × Nat :=
  retryFrom retryDelay maxRetries oracle 0 maxRetries

/-! ## Tool dispatch (src/scr/agent.py, `_execute_tool`)

A registered tool's `execute` handler is modelled as a function from its
keyword arguments to a returned value or a raised exception (the repo's
tools in src/scr/tools return dict literals on every path and may raise,
e.g. on unexpected keyword arguments). -/

abbrev ToolHandler := List (String × PyVal) → Except PyErr PyVal

/-- A `{"status": "error", "error_message": msg}` result. -/
def errResult (msg : String) : PyVal :=
  .vDict [("status", .vStr "error"), ("error_message", .vStr msg)]

/-- `_execute_tool`.  The membership test `tool_name not in self.tools`
raises `TypeError` when `tool_name` is unhashable (a list or dict) — that
raise is outside any `try` in the source; the `**parameters` unpacking and
the handler call are inside the `try` and their exceptions are converted to
error results. -/
def execute_tool (tools : List (String × ToolHandler)) (toolName params : PyVal) :
    Except PyErr PyVal :=
  match toolName with
  | .vList _ => .error (typeErr "unhashable type: list")
  | .vDict _ => .error (typeErr "unhashable type: dict")
  | .vStr s =>
    match tools.lookup s with
    | none => .ok (errResult ("Tool " ++ sQuote ++ s ++ sQuote ++ " not found"))
    | some h =>
      match params with
      | .vDict kvs =>
        match h kvs with
        | .ok r => .ok r
        | .error e => .ok (errResult ("Tool error: " ++ e.msg))
      | _ => .ok (errResult ("Tool error: argument after ** must be a mapping"))
  | other => .ok (errResult ("Tool " ++ sQuote ++ pyStrTop other ++ sQuote ++ " not found"))

/-- `_summarize_result`: the success branch truncates `str(result)` to 500
characters plus `"..."`; the error branch prepends `"Error: "` to the
error message without truncation. -/
def summarize_result (result : PyVal) : Except PyErr String :=
  match pyGet result "status" .vNone with
  | .error e => .error e
  | .ok st =>
    if pyEqStr st "error" then
      match pyGet result "error_message" (.vStr "Unknown") with
      | .error e => .error e
      | .ok em => .ok ("Error: " ++ pyStrTop em)
    else
      match pyGet result "result" (.vStr "") with
      | .error e => .error e
      | .ok r =>
        let s := pyStrTop r
        if 500 < s.length then .ok (takeChars s 500 ++ "...") else .ok s

/-- The raise behaviour of `_print_step` (verbose printing): it calls
`parameters.items()` when `parameters` is truthy, which raises
`AttributeError` on non-dicts. -/
def printStepCheck (params : PyVal) : Except PyErr Unit :=
  if pyTruthy params then
    match params with
    | .vDict _ => .ok ()
    | _ => .error (attrErr "object has no attribute items")
  else .ok ()

/-- The raise behaviour of `_print_result` (verbose printing). -/
def printResultCheck (result : PyVal) : Except PyErr Unit :=
  match pyGet result "status" (.vStr "unknown") with
  | .error e => .error e
  | .ok st =>
    if pyEqStr st "success" then
      match pyGet result "result" (.vStr "") with
      | .error e => .error e
      | .ok _ => .ok ()
    else
      match pyGet result "error_message" (.vStr "Unknown") with
      | .error e => .error e
      | .ok _ => .ok ()

/-- Step 6 of the run loop: track visualizations. -/
def vizTrack (action result : PyVal) (viz : List PyVal) : Except PyErr (List PyVal) :=
  if pyEqStr action "visualize" then
    match pyGet result "status" .vNone with
    | .error e => .error e
    | .ok st =>
      if pyEqStr st "success" then
        match pyGet result "data" (.vDict []) with
        | .error e => .error e
        | .ok data =>
          match data with
          | .vDict kvs =>
            if hasKey kvs "filepath" then
              match pyGetItem data "filepath" with
              | .error e => .error e
              | .ok fp =>
                match pyGet data "chart_type" (.vStr "chart") with
                | .error e => .error e
                | .ok ct => .ok (viz ++ [.vDict [("filepath", fp), ("chart_type", ct)]])
            else .ok viz
          | _ => .ok viz
      else .ok viz
  else .ok viz

/-! ## Prompt assembly (`_build_context_prompt`, src/scr/prompts.py) -/

/-- The static instruction text of `build_agent_prompt` with the rendered
tool and dataset catalogs.  Its content is irrelevant to every claim (the
model oracle is indexed by iteration and attempt, not by prompt text), so
the long template literal is abbreviated; `build_agent_prompt` performs no
fallible operation, so this part never raises. -/
def basePromptText : String :=
  "# DATA ANALYTICS AGENT - ReAct System (tool catalog and dataset catalog elided)"

/-- `_build_context_prompt`: base prompt, recent context window of 3, the
iteration budget line and the user query.  The only fallible part is
`get_recent_context` (slicing a stored non-sliceable `thought`). -/
def build_context_prompt (mem : ConversationMemory) (userQuery : String)
    (currentIteration maxIterations : Nat) : Except PyErr String :=
  match mem.get_recent_context 3 with
  | .error e => .error e
  | .ok ctx =>
    .ok (basePromptText ++ "\n\n" ++ ctx ++ "\n\n## Current Iteration: "
      ++ toString currentIteration ++ " / " ++ toString maxIterations
      ++ "\n\n## Current User Query\n\n" ++ userQuery
      ++ "\n\nRemember: Respond with valid JSON only!\n")

/-! ## The run loop (src/scr/agent.py, `DataAnalyticsAgent.run`) -/

/-- Configuration of a `DataAnalyticsAgent` plus the behaviour of its
external collaborators: the registered tools' handlers and the model
oracle.  `oracle i a` is the raw outcome (decoded JSON value or raised
exception) of attempt `a` of the Gemini call in iteration `i`. -/
structure AgentCfg where
  maxIterations : Nat
  verbose : Bool
  retryDelay : ℚ
  maxRetries : Nat
  tools : List (String × ToolHandler)
  oracle : Nat → Nat → Except PyErr PyVal

/-- An error result dictionary of `run` (prompt error, LLM error, missing
answer): these carry no `conversation_history` key. -/
def errorRunResult (msg : String) (iters : Nat) : PyVal :=
  .vDict [("status", .vStr "error"), ("error_message", .vStr msg),
    ("iterations", .vInt iters)]

/-- The budget-exhaustion result of `run` (falls out of the while loop). -/
def budgetRunResult (maxIter iters : Nat) (hist : List PyVal) : PyVal :=
  .vDict [("status", .vStr "error"),
    ("error_message", .vStr ("Did not complete within " ++ toString maxIter ++ " iterations")),
    ("iterations", .vInt iters), ("conversation_history", .vList hist)]

/-- The success result of `run`. -/
def successRunResult (ans : PyVal) (viz : List PyVal) (iters : Nat) (hist : List PyVal) : PyVal :=
  .vDict [("status", .vStr "success"), ("answer", ans), ("visualizations", .vList viz),
    ("iterations", .vInt iters), ("conversation_history", .vList hist)]

/-- One entry of `conversation_history`. -/
def histEntry (iter : Nat) (thought action params result : PyVal) : PyVal :=
  .vDict [("iteration", .vInt iter), ("thought", thought), ("action", action),
    ("parameters", params), ("result", result)]

/-- Outcome of one loop body after a successful gateway call: either `run`
returns (`DONE` handling), or the loop continues with updated state. -/
inductive StepOut where
  | done (result : PyVal)
  | next (mem : ConversationMemory) (viz hist : List PyVal) (call : PyVal × PyVal)

/-- Steps 3-9 of the loop body of `run` (parse fields, verbose print, DONE
check, tool dispatch, result summary/logging, visualization tracking,
memory append, history append).  Uncaught Python exceptions propagate as
`.error`. -/
def stepBody (cfg : AgentCfg) (userQuery : String) (iter : Nat) (resp : PyVal)
    (mem : ConversationMemory) (viz hist : List PyVal) : Except PyErr StepOut :=
  match pyGet resp "thought" (.vStr "") with
  | .error e => .error e
  | .ok thought =>
  match pyGet resp "action" (.vStr "") with
  | .error e => .error e
  | .ok action =>
  match pyGet resp "parameters" (.vDict []) with
  | .error e => .error e
  | .ok params =>
  match (if cfg.verbose then printStepCheck params else .ok ()) with
  | .error e => .error e
  | .ok _ =>
  if pyEqStr action "DONE" then
    match pyGet params "answer" (.vStr "") with
    | .error e => .error e
    | .ok finalAnswer =>
      if !pyTruthy finalAnswer then
        .ok (.done (errorRunResult "Agent finished without answer" iter))
      else .ok (.done (successRunResult finalAnswer viz iter hist))
  else
    match execute_tool cfg.tools action params with
    | .error e => .error e
    | .ok result =>
    match summarize_result result with
    | .error e => .error e
    | .ok resultSummary =>
    match (if cfg.verbose then printResultCheck result else .ok ()) with
    | .error e => .error e
    | .ok _ =>
    match vizTrack action result viz with
    | .error e => .error e
    | .ok viz2 =>
      let mem2 := mem.add_turn ⟨userQuery, thought, action, params, resultSummary⟩
      let hist2 := hist ++ [histEntry iter thought action params result]
      .ok (.next mem2 viz2 hist2 (action, params))

/-- The `while iterations < self.max_iterations` loop, with `fuel` the
remaining iterations and `iterationsDone` the iterations already executed.
Also returns the log of tool dispatches `(action, parameters)` performed by
completed loop bodies. -/
def runLoop (cfg : AgentCfg) (userQuery : String) :
    Nat → Nat → ConversationMemory → List PyVal → List PyVal → List (PyVal × PyVal) →
    Except PyErr PyVal × List (PyVal × PyVal)
  | 0, iterationsDone, _mem, _viz, hist, calls =>
    (.ok (budgetRunResult cfg.maxIterations iterationsDone hist), calls)
  | fuel + 1, iterationsDone, mem, viz, hist, calls =>
    let iter := iterationsDone + 1
    match build_context_prompt mem userQuery iter cfg.maxIterations with
    | .error e => (.ok (errorRunResult ("Prompt error: " ++ e.msg) iter), calls)
    | .ok _prompt =>
      match (call_llm_with_retry cfg.retryDelay cfg.maxRetries (cfg.oracle iter)).1 with
      | .error e => (.ok (errorRunResult ("LLM error: " ++ e.msg) iter), calls)
      | .ok resp =>
        match stepBody cfg userQuery iter resp mem viz hist with
        | .error e => (.error e, calls)
        | .ok (.done r) => (.ok r, calls)
        | .ok (.next mem2 viz2 hist2 call) =>
          runLoop cfg userQuery fuel iter mem2 viz2 hist2 (calls ++ [call])

/-- `DataAnalyticsAgent.run(user_query)`.  `mem0` is the state of
`self.memory` on entry (`ConversationMemory.mkEmpty 50` for a freshly
constructed agent).  The first component is the returned dictionary, or the
Python exception that propagated out of `run`; the second is the log of
tool dispatches. -/
def DataAnalyticsAgent.run (cfg : AgentCfg) (mem0 : ConversationMemory)
    (userQuery : String) : Except PyErr PyVal × List (PyVal × PyVal) :=
  runLoop cfg userQuery cfg.maxIterations 0 mem0 [] [] []

/-! ## Claim-specific configurations and derived observers -/

/-- The `result.get("status")` value inspected by `_summarize_result`. -/
def statusOfResult (r : PyVal) : PyVal :=
  match r with
  | .vDict kvs => (kvs.lookup "status").getD .vNone
  | _ => .vNone

/-- The `result.get("error_message", "Unknown")` value. -/
def errMsgOfResult (r : PyVal) : PyVal :=
  match r with
  | .vDict kvs => (kvs.lookup "error_message").getD (.vStr "Unknown")
  | _ => .vStr "Unknown"

/-- A 504-character tool error message (e.g. from a long model-chosen tool
name or a long exception message). -/
def longToolErrorMsg : String := String.mk (List.replicate 504 'a')

/-- An error result carrying the long message. -/
def hugeErrorResult : PyVal :=
  .vDict [("status", .vStr "error"), ("error_message", .vStr longToolErrorMsg)]

/-- An agent whose single tool returns `hugeErrorResult` and whose model
picks that tool. -/
def hugeErrCfg : AgentCfg :=
  ⟨1, false, 2, 3, [("t1", fun _ => .ok hugeErrorResult)],
   fun _ _ => .ok (.vDict [("thought", .vStr "t"), ("action", .vStr "t1"),
     ("parameters", .vDict [])])⟩

/-- The lengths of the result summaries stored in memory by a loop step. -/
def storedSummaryLengths : Except PyErr StepOut → List Nat
  | .ok (.next m _ _ _) => m.turns.map (fun t => t.result.length)
  | _ => []

/-- The registered tools' handlers return dictionaries whenever they return
normally (true of every tool in src/scr/tools: each `execute` returns a
dict literal on every path and otherwise raises). -/
def toolsReturnDicts (tools : List (String × ToolHandler)) : Prop :=
  ∀ nm h, (nm, h) ∈ tools → ∀ kvs v, h kvs = .ok v → ∃ l, v = .vDict l

/-- An agent whose model always returns a JSON object missing `action` but
whose rendering contains "quota" (so the missing-fields RuntimeError is
classified as a rate-limit failure by the retry loop). -/
def protocolFailCfg : AgentCfg :=
  ⟨1, false, 2, 3, [], fun _ _ => .ok (.vDict [("thought", .vStr "quota")])⟩

/-- An agent whose model call always raises a genuine rate-limit error. -/
def rateLimitCfg : AgentCfg :=
  ⟨1, false, 2, 3, [], fun _ _ => .error (runtimeErr "429 resource exhausted")⟩

/-- Shape of gateway-returned decisions under which `run` cannot crash: a
dict whose `parameters` value (defaulting to the empty dict) is a mapping
and whose `action` value is hashable. -/
def decisionShapeOk (d : PyVal) : Prop :=
  ∃ kvs, d = .vDict kvs
    ∧ (∃ ps, (kvs.lookup "parameters").getD (.vDict []) = .vDict ps)
    ∧ hashableVal ((kvs.lookup "action").getD (.vStr "")) = true

/-- Every decision the gateway returns (over all iterations) is well
shaped. -/
def gatewayDecisionsOk (cfg : AgentCfg) : Prop :=
  ∀ i d, (call_llm_with_retry cfg.retryDelay cfg.maxRetries (cfg.oracle i)).1 = .ok d →
    decisionShapeOk d

/-- An agent whose model returns a `DONE` decision whose `parameters` value
is the string "x" (valid JSON, non-mapping). -/
def nonMappingParamsCfg : AgentCfg :=
  ⟨1, false, 2, 3, [],
   fun _ _ => .ok (.vDict [("thought", .vStr "t"), ("action", .vStr "DONE"),
     ("parameters", .vStr "x")])⟩

/-- An agent used to witness C1: the model immediately returns a well
formed terminal decision. -/
def c1WitnessCfg : AgentCfg :=
  ⟨2, false, 2, 3, [],
   fun _ _ => .ok (.vDict [("thought", .vStr "t"), ("action", .vStr "DONE"),
     ("parameters", .vDict [("answer", .vStr "done")])])⟩

/-- The end-to-end scenario-B agent: budget of one iteration, model always
chooses `list_datasets`. -/
def c2WitnessCfg : AgentCfg :=
  ⟨1, true, 2, 3,
   [("list_datasets", fun _ => .ok (.vDict [("status", .vStr "success"),
      ("result", .vStr "No datasets loaded.")]))],
   fun _ _ => .ok (.vDict [("thought", .vStr "t"), ("action", .vStr "list_datasets"),
     ("parameters", .vDict [])])⟩

/-- The conversation history its single iteration produces. -/
def c2WitnessHist : List PyVal :=
  [histEntry 1 (.vStr "t") (.vStr "list_datasets") (.vDict [])
    (.vDict [("status", .vStr "success"), ("result", .vStr "No datasets loaded.")])]

/-- Whether a value supports the `[:200]` slice taken by
`get_recent_context` (strings and lists do; everything else raises). -/
def sliceableVal : PyVal → Bool
  | .vStr _ => true
  | .vList _ => true
  | _ => false

/-- Shape of a gateway-returned decision that keeps the loop running: a
dict whose `parameters` value is a mapping, whose `action` value is
hashable and is not the terminal marker, and whose `thought` value is
sliceable (so the next iteration's prompt build cannot raise). -/
def nonTerminalDecision (d : PyVal) : Prop :=
  ∃ kvs, d = .vDict kvs
    ∧ (∃ ps, (kvs.lookup "parameters").getD (.vDict []) = .vDict ps)
    ∧ pyEqStr ((kvs.lookup "action").getD (.vStr "")) "DONE" = false
    ∧ hashableVal ((kvs.lookup "action").getD (.vStr "")) = true
    ∧ sliceableVal ((kvs.lookup "thought").getD (.vStr "")) = true

/-- A two-iteration agent whose model never emits `DONE`, used to witness
the general budget-exhaustion behaviour. -/
def c2BudgetWitnessCfg : AgentCfg :=
  ⟨2, true, 2, 3,
   [("list_datasets", fun _ => .ok (.vDict [("status", .vStr "success"),
      ("result", .vStr "No datasets loaded.")]))],
   fun _ _ => .ok (.vDict [("thought", .vStr "t"), ("action", .vStr "list_datasets"),
     ("parameters", .vDict [])])⟩

/-! ## Helper lemmas -/

lemma containsStr_refl (s : String) : containsStr s s :=
  ⟨[], [], by simp⟩

lemma containsStr_append_right (a b p : String) (h : containsStr b p) :
    containsStr (a ++ b) p := by
  rcases h with ⟨u, v, huv⟩
  exact ⟨a.data ++ u, v, by simp [String.data_append, ← huv, List.append_assoc]⟩

lemma containsStr_append_left (a b p : String) (h : containsStr a p) :
    containsStr (a ++ b) p := by
  rcases h with ⟨u, v, huv⟩
  exact ⟨u, v ++ b.data, by simp [String.data_append, ← huv, List.append_assoc]⟩

lemma takeChars_length (s : String) (n : Nat) :
    (takeChars s n).length = min n s.length := by
  simp only [takeChars, List.asString, String.length, List.length_take]

lemma add_turn_length (m : ConversationMemory) (t : Turn) :
    (m.add_turn t).turns.length = min (m.turns.length + 1) m.max_turns := by
  simp [ConversationMemory.add_turn]
  omega

lemma add_turn_max_turns (m : ConversationMemory) (t : Turn) :
    (m.add_turn t).max_turns = m.max_turns := rfl

lemma foldl_add_turn_length_le (c : Nat) (ts : List Turn) :
    ∀ m : ConversationMemory, m.max_turns = c → m.turns.length ≤ c →
      (ts.foldl ConversationMemory.add_turn m).turns.length ≤ c := by
  induction ts with
  | nil => intro m hm hl; simpa using hl
  | cons t ts ih =>
    intro m hm hl
    refine ih (m.add_turn t) (by simp [add_turn_max_turns, hm]) ?_
    rw [add_turn_length, hm]
    omega

/-! ## C3 -/

/-- C3: a `ConversationMemory` of capacity `max_turns` never stores more
than `max_turns` turns over any sequence of `add_turn` calls, and an
insertion into a full memory (positive capacity) evicts exactly the oldest
turn, keeping the survivors in FIFO order. -/
theorem c3_memory_capacity_fifo (c : Nat) (ts : List Turn) :
    (ts.foldl ConversationMemory.add_turn (ConversationMemory.mkEmpty c)).turns.length ≤ c
    ∧ ∀ (m : ConversationMemory) (t : Turn), m.max_turns = c → m.turns.length = c → 0 < c →
        (m.add_turn t).turns = m.turns.tail ++ [t] := by
  constructor
  · exact foldl_add_turn_length_le c ts (ConversationMemory.mkEmpty c) rfl (by simp [ConversationMemory.mkEmpty])
  · intro m t hm hl hc
    have h1 : (m.turns ++ [t]).length - m.max_turns = 1 := by
      simp [hm, hl]
    simp only [ConversationMemory.add_turn, h1]
    cases hmt : m.turns with
    | nil => rw [hmt] at hl; simp at hl; omega
    | cons a rest => simp

/-- Witness for C3 at capacity 2 with three insertions. -/
theorem c3_memory_capacity_fifo_witness :
    (([⟨"q", .vNone, .vNone, .vNone, "r1"⟩, ⟨"q", .vNone, .vNone, .vNone, "r2"⟩,
       ⟨"q", .vNone, .vNone, .vNone, "r3"⟩] : List Turn).foldl ConversationMemory.add_turn
        (ConversationMemory.mkEmpty 2)).turns.length ≤ 2
    ∧ ((⟨2, [⟨"q", .vNone, .vNone, .vNone, "r1"⟩, ⟨"q", .vNone, .vNone, .vNone, "r2"⟩]⟩ :
          ConversationMemory).add_turn ⟨"q", .vNone, .vNone, .vNone, "r3"⟩).turns
      = [⟨"q", .vNone, .vNone, .vNone, "r2"⟩, ⟨"q", .vNone, .vNone, .vNone, "r3"⟩] := by
  refine ⟨(c3_memory_capacity_fifo 2 _).1, ?_⟩
  rw [(c3_memory_capacity_fifo 2 []).2
    (⟨2, [⟨"q", .vNone, .vNone, .vNone, "r1"⟩, ⟨"q", .vNone, .vNone, .vNone, "r2"⟩]⟩ :
      ConversationMemory) ⟨"q", .vNone, .vNone, .vNone, "r3"⟩ rfl rfl (by omega)]
  rfl

/-! ## C4 -/

/-- C4 counterexample: `get_recent_context(0)` on a one-turn memory renders
one turn (the Python slice `[-0:]` selects the whole list), not the claimed
empty selection of at most `min(0, 1) = 0` turns, and its result is not the
no-history sentinel. -/
theorem c4_window_zero_counterexample :
    (recentSel [⟨"q", .vStr "th", .vStr "act", .vDict [], "res"⟩] 0).length = 1
    ∧ min 0 ([(⟨"q", .vStr "th", .vStr "act", .vDict [], "res"⟩ : Turn)] : List Turn).length = 0
    ∧ (ConversationMemory.get_recent_context ⟨50, [⟨"q", .vStr "th", .vStr "act", .vDict [], "res"⟩]⟩ 0
        ≠ .ok noHistorySentinel) := by
  refine ⟨rfl, rfl, ?_⟩
  intro h
  exact absurd (Except.ok.inj h) (by decide)

/-- C4 amended: for `n ≥ 1` the window selects exactly `min(n, len(turns))`
turns; for `n = 0` the slice `[-0:]` selects all stored turns; when the
memory is empty (in particular after `clear()`), `get_recent_context`
returns the no-history sentinel for every `n`. -/
theorem c4_window_amended (m : ConversationMemory) (n : Nat) :
    (1 ≤ n → (recentSel m.turns n).length = min n m.turns.length)
    ∧ recentSel m.turns 0 = m.turns
    ∧ (∀ k, (m.clear).get_recent_context k = .ok noHistorySentinel) := by
  refine ⟨?_, ?_, ?_⟩
  · intro hn
    have : n ≠ 0 := by omega
    simp [recentSel, this]
    omega
  · simp [recentSel]
  · intro k
    simp [ConversationMemory.clear, ConversationMemory.get_recent_context]

/-- Witness for C4 amended at `n = 2` on a one-turn memory. -/
theorem c4_window_amended_witness :
    (1 ≤ 2 → (recentSel ([⟨"q", .vStr "th", .vStr "act", .vDict [], "res"⟩] : List Turn) 2).length
        = min 2 ([(⟨"q", .vStr "th", .vStr "act", .vDict [], "res"⟩ : Turn)] : List Turn).length)
    ∧ recentSel ([⟨"q", .vStr "th", .vStr "act", .vDict [], "res"⟩] : List Turn) 0
        = [⟨"q", .vStr "th", .vStr "act", .vDict [], "res"⟩]
    ∧ (∀ k, ((⟨50, [⟨"q", .vStr "th", .vStr "act", .vDict [], "res"⟩]⟩ :
          ConversationMemory).clear).get_recent_context k = .ok noHistorySentinel) :=
  c4_window_amended ⟨50, [⟨"q", .vStr "th", .vStr "act", .vDict [], "res"⟩]⟩ 2

lemma lookup_some_mem {β : Type} (l : List (String × β)) (k : String) (b : β)
    (h : l.lookup k = some b) : (k, b) ∈ l := by
  induction l with
  | nil => simp [List.lookup] at h
  | cons p t ih =>
    rw [List.lookup_cons] at h
    split at h
    · next heq =>
      obtain ⟨k2, b2⟩ := p
      simp only [beq_iff_eq] at heq
      subst heq
      simp only [Option.some.injEq] at h
      subst h
      exact List.mem_cons_self _ _
    · exact List.mem_cons_of_mem _ (ih h)

/-! ## C5 -/

lemma retryFrom_all_retryable (delay : ℚ) (maxRetries : Nat)
    (oracle : Nat → Except PyErr PyVal) :
    ∀ fuel attempt, attempt + fuel = maxRetries → 1 ≤ fuel →
      (∀ i, attempt ≤ i → i < maxRetries →
        ∃ e, call_llm (oracle i) = .error e ∧ isRetryable e.msg = true) →
      retryFrom delay maxRetries oracle attempt fuel =
        (.error (runtimeErr (rateLimitExhaustedMsg maxRetries)),
         (List.range' attempt (fuel - 1)).map (fun i => delay * 2 ^ i), fuel) := by
  intro fuel
  induction fuel with
  | zero => omega
  | succ f ih =>
    intro attempt htot _hf hall
    obtain ⟨e, he, hr⟩ := hall attempt (le_refl _) (by omega)
    cases f with
    | zero =>
      have hnlt : ¬ (attempt + 1 < maxRetries) := by omega
      simp [retryFrom, he, hr, hnlt]
    | succ f2 =>
      have hlt : attempt + 1 < maxRetries := by omega
      have hrec := ih (attempt + 1) (by omega) (by omega)
        (fun i h1 h2 => hall i (by omega) h2)
      rw [retryFrom, he]
      simp only [hr, if_true, if_pos hlt, hrec]
      simp [List.range'_succ]

/-- C5: the gateway retry loop retries only rate-limit-classified failures:
a first-attempt failure whose (lowercased) message matches none of "429",
"quota", "rate limit" propagates unchanged after exactly one attempt with
no backoff sleep; when every attempt fails retryably the loop makes exactly
`max_retries` attempts, sleeps `retry_delay * 2^attempt` between attempts,
and ends with the rate-limit-exhausted RuntimeError; and whenever more than
one attempt is made, the first attempt failed with a retryable message. -/
theorem c5_retry_classification (delay : ℚ) (maxRetries : Nat)
    (oracle : Nat → Except PyErr PyVal) :
    (∀ e, 1 ≤ maxRetries → call_llm (oracle 0) = .error e → isRetryable e.msg = false →
        call_llm_with_retry delay maxRetries oracle = (.error e, [], 1))
    ∧ ((∀ i, i < maxRetries → ∃ e, call_llm (oracle i) = .error e ∧ isRetryable e.msg = true) →
        1 ≤ maxRetries →
        call_llm_with_retry delay maxRetries oracle =
          (.error (runtimeErr (rateLimitExhaustedMsg maxRetries)),
           (List.range (maxRetries - 1)).map (fun i => delay * 2 ^ i), maxRetries))
    ∧ (∀ r sleeps n, call_llm_with_retry delay maxRetries oracle = (r, sleeps, n) → 2 ≤ n →
        ∃ e, call_llm (oracle 0) = .error e ∧ isRetryable e.msg = true) := by
  refine ⟨?_, ?_, ?_⟩
  · intro e h1 he hr
    obtain ⟨f, rfl⟩ : ∃ f, maxRetries = f + 1 := ⟨maxRetries - 1, by omega⟩
    simp [call_llm_with_retry, retryFrom, he, hr]
  · intro hall h1
    have := retryFrom_all_retryable delay maxRetries oracle maxRetries 0 (by omega) h1
      (fun i _ h2 => hall i h2)
    rw [call_llm_with_retry, this, List.range_eq_range' (maxRetries - 1)]
  · intro r sleeps n h hn
    rw [call_llm_with_retry] at h
    cases maxRetries with
    | zero =>
      rw [retryFrom] at h
      simp only [Prod.mk.injEq] at h
      omega
    | succ k =>
      rw [retryFrom] at h
      cases hc : call_llm (oracle 0) with
      | ok v =>
        rw [hc] at h
        simp only [Prod.mk.injEq] at h
        omega
      | error e =>
        rw [hc] at h
        by_cases hr : isRetryable e.msg = true
        · exact ⟨e, hc ▸ rfl, hr⟩
        · exfalso
          rw [Bool.not_eq_true] at hr
          simp only [hr, Bool.false_eq_true, if_false, Prod.mk.injEq] at h
          omega

/-- Witness for C5: a "boom" failure propagates after one attempt; a
constant "429" failure exhausts 3 attempts with sleeps 2s, 4s; attempts
are 3 ≥ 2 so the first outcome was retryable. -/
theorem c5_retry_classification_witness :
    call_llm_with_retry 2 3 (fun _ => .error (runtimeErr "boom"))
      = (.error (runtimeErr "LLM error: boom"), [], 1)
    ∧ call_llm_with_retry 2 3 (fun _ => .error (runtimeErr "429"))
      = (.error (runtimeErr (rateLimitExhaustedMsg 3)),
         (List.range 2).map (fun i => (2 : ℚ) * 2 ^ i), 3)
    ∧ ∃ e, call_llm ((fun _ => (.error (runtimeErr "429") : Except PyErr PyVal)) 0) = .error e
        ∧ isRetryable e.msg = true := by
  refine ⟨?_, ?_, ?_⟩
  · exact (c5_retry_classification 2 3 (fun _ => .error (runtimeErr "boom"))).1
      (runtimeErr "LLM error: boom") (by omega) rfl (by decide)
  · exact (c5_retry_classification 2 3 (fun _ => .error (runtimeErr "429"))).2.1
      (fun i _ => ⟨runtimeErr "LLM error: 429", rfl, by decide⟩) (by omega)
  · exact (c5_retry_classification 2 3 (fun _ => .error (runtimeErr "429"))).2.2
      (.error (runtimeErr (rateLimitExhaustedMsg 3)))
      ((List.range 2).map (fun i => (2 : ℚ) * 2 ^ i)) 3
      ((c5_retry_classification 2 3 (fun _ => .error (runtimeErr "429"))).2.1
        (fun i _ => ⟨runtimeErr "LLM error: 429", rfl, by decide⟩) (by omega))
      (by omega)

/-! ## C9 -/

set_option maxRecDepth 4000 in
/-- C9 counterexample: `_summarize_result` does not truncate error
summaries: an error result with a 504-character message yields the
511-character summary `"Error: " ++ message`, exceeding the claimed
503-character budget, and the run loop stores exactly that summary in
memory. -/
theorem c9_error_summary_unbounded_counterexample :
    summarize_result hugeErrorResult = .ok ("Error: " ++ longToolErrorMsg)
    ∧ 503 < ("Error: " ++ longToolErrorMsg).length
    ∧ storedSummaryLengths (stepBody hugeErrCfg "q" 1
        (.vDict [("thought", .vStr "t"), ("action", .vStr "t1"), ("parameters", .vDict [])])
        (ConversationMemory.mkEmpty 50) [] []) = [511] := by
  refine ⟨rfl, by decide, by decide⟩

/-- C9 amended: summaries of results whose `status` is not the string
"error" are truncated to at most 503 characters (500 plus `"..."`); error
summaries are `"Error: " ++ error_message` with no truncation, so their
length is unbounded in the length of the error message. -/
theorem c9_summary_truncation_amended (result : PyVal) (s : String)
    (h : summarize_result result = .ok s) :
    (pyEqStr (statusOfResult result) "error" = false → s.length ≤ 503)
    ∧ (pyEqStr (statusOfResult result) "error" = true →
        s = "Error: " ++ pyStrTop (errMsgOfResult result)) := by
  cases result with
  | vDict kvs =>
    rw [summarize_result] at h
    simp only [pyGet] at h
    by_cases hst : pyEqStr ((kvs.lookup "status").getD .vNone) "error" = true
    · rw [if_pos hst] at h
      simp only [Except.ok.injEq] at h
      subst h
      refine ⟨?_, ?_⟩
      · intro hfalse
        rw [statusOfResult] at hfalse
        rw [hfalse] at hst
        cases hst
      · intro _
        rw [errMsgOfResult]
    · rw [if_neg hst] at h
      refine ⟨?_, ?_⟩
      · intro _
        split at h
        · next hlen =>
          simp only [Except.ok.injEq] at h
          subst h
          rw [String.length_append, takeChars_length]
          have : ("..." : String).length = 3 := rfl
          omega
        · next hlen =>
          simp only [Except.ok.injEq] at h
          subst h
          omega
      · intro htrue
        rw [statusOfResult] at htrue
        rw [htrue] at hst
        cases hst rfl
  | vNone => simp [summarize_result, pyGet] at h
  | vBool b => simp [summarize_result, pyGet] at h
  | vInt n => simp [summarize_result, pyGet] at h
  | vStr t => simp [summarize_result, pyGet] at h
  | vList xs => simp [summarize_result, pyGet] at h

set_option maxRecDepth 4000 in
/-- Witness for C9 amended on a success result with a 504-character payload
(truncated to 503) and an error result (summary is the untruncated
message). -/
theorem c9_summary_truncation_amended_witness :
    ((pyEqStr (statusOfResult (.vDict [("status", .vStr "success"),
        ("result", .vStr longToolErrorMsg)])) "error" = false →
      (takeChars longToolErrorMsg 500 ++ "...").length ≤ 503)
    ∧ (pyEqStr (statusOfResult (.vDict [("status", .vStr "success"),
        ("result", .vStr longToolErrorMsg)])) "error" = true →
      takeChars longToolErrorMsg 500 ++ "..." =
        "Error: " ++ pyStrTop (errMsgOfResult (.vDict [("status", .vStr "success"),
          ("result", .vStr longToolErrorMsg)]))))
    ∧ ((pyEqStr (statusOfResult hugeErrorResult) "error" = false →
        ("Error: " ++ longToolErrorMsg).length ≤ 503)
    ∧ (pyEqStr (statusOfResult hugeErrorResult) "error" = true →
        "Error: " ++ longToolErrorMsg = "Error: " ++ pyStrTop (errMsgOfResult hugeErrorResult))) := by
  constructor
  · exact c9_summary_truncation_amended
      (.vDict [("status", .vStr "success"), ("result", .vStr longToolErrorMsg)])
      (takeChars longToolErrorMsg 500 ++ "...") (by rfl)
  · exact c9_summary_truncation_amended hugeErrorResult ("Error: " ++ longToolErrorMsg) rfl

/-! ## C6 -/

lemma lookup_isSome_of_hasKey (kvs : List (String × PyVal)) (k : String)
    (h : hasKey kvs k = true) : ∃ v, kvs.lookup k = some v := by
  induction kvs with
  | nil => simp [hasKey] at h
  | cons p t ih =>
    obtain ⟨pk, pv⟩ := p
    by_cases hk : k = pk
    · subst hk
      simp [List.lookup_cons]
    · rw [hasKey, List.any_cons] at h
      have h2 : (pk == k) = false := by simpa using (Ne.symm hk)
      rw [h2] at h
      simp only [Bool.false_or] at h
      have h1 : (k == pk) = false := by simpa using hk
      rw [List.lookup_cons, h1]
      simp only [Bool.false_eq_true, if_false]
      exact ih h

lemma printStepCheck_dict (kvs : List (String × PyVal)) :
    printStepCheck (.vDict kvs) = .ok () := by
  by_cases h : pyTruthy (.vDict kvs) = true <;> simp [printStepCheck, h]

lemma summarize_dict (kvs : List (String × PyVal)) :
    ∃ s, summarize_result (.vDict kvs) = .ok s := by
  rw [summarize_result]
  simp only [pyGet]
  split
  · exact ⟨_, rfl⟩
  · split
    · exact ⟨_, rfl⟩
    · exact ⟨_, rfl⟩

lemma printResultCheck_dict (kvs : List (String × PyVal)) :
    printResultCheck (.vDict kvs) = .ok () := by
  rw [printResultCheck]
  simp only [pyGet]
  split <;> rfl

lemma vizTrack_dict (action : PyVal) (kvs : List (String × PyVal)) (viz : List PyVal) :
    ∃ viz2, vizTrack action (.vDict kvs) viz = .ok viz2 := by
  rw [vizTrack]
  by_cases h1 : pyEqStr action "visualize" = true
  · simp only [h1, if_true, pyGet]
    split
    · split
      · next kvs2 heq =>
        by_cases h2 : hasKey kvs2 "filepath" = true
        · obtain ⟨v, hv⟩ := lookup_isSome_of_hasKey kvs2 "filepath" h2
          simp [h2, heq, pyGetItem, hv, pyGet]
        · simp [h2]
      · exact ⟨_, rfl⟩
    · exact ⟨_, rfl⟩
  · simp only [h1]
    simp

lemma execute_tool_dict (tools : List (String × ToolHandler))
    (ht : toolsReturnDicts tools) (name params : PyVal) (hh : hashableVal name = true) :
    ∃ l, execute_tool tools name params = .ok (.vDict l) := by
  cases name with
  | vList xs => simp [hashableVal] at hh
  | vDict kvs => simp [hashableVal] at hh
  | vStr s =>
    rw [execute_tool]
    cases hl : tools.lookup s with
    | none => exact ⟨_, rfl⟩
    | some h =>
      cases params with
      | vDict kvs =>
        cases hr : h kvs with
        | ok v =>
          obtain ⟨l, rfl⟩ := ht s h (lookup_some_mem _ _ _ hl) kvs v hr
          exact ⟨l, by simp [hr]⟩
        | error e =>
          exact ⟨[("status", .vStr "error"),
            ("error_message", .vStr ("Tool error: " ++ e.msg))], by simp [hr, errResult]⟩
      | vNone => exact ⟨_, rfl⟩
      | vBool b => exact ⟨_, rfl⟩
      | vInt n => exact ⟨_, rfl⟩
      | vStr t => exact ⟨_, rfl⟩
      | vList xs => exact ⟨_, rfl⟩
  | vNone => exact ⟨_, rfl⟩
  | vBool b => exact ⟨_, rfl⟩
  | vInt n => exact ⟨_, rfl⟩

lemma stepBody_next (cfg : AgentCfg) (q : String) (iter : Nat)
    (kvs ps : List (String × PyVal)) (mem : ConversationMemory) (viz hist : List PyVal)
    (hps : (kvs.lookup "parameters").getD (.vDict []) = .vDict ps)
    (hact : pyEqStr ((kvs.lookup "action").getD (.vStr "")) "DONE" = false)
    (hhash : hashableVal ((kvs.lookup "action").getD (.vStr "")) = true)
    (ht : toolsReturnDicts cfg.tools) :
    ∃ summ res viz2, stepBody cfg q iter (.vDict kvs) mem viz hist
      = .ok (.next
          (mem.add_turn ⟨q, (kvs.lookup "thought").getD (.vStr ""),
            (kvs.lookup "action").getD (.vStr ""), .vDict ps, summ⟩)
          viz2
          (hist ++ [histEntry iter ((kvs.lookup "thought").getD (.vStr ""))
            ((kvs.lookup "action").getD (.vStr "")) (.vDict ps) res])
          ((kvs.lookup "action").getD (.vStr ""), .vDict ps)) := by
  obtain ⟨l, hl⟩ := execute_tool_dict cfg.tools ht ((kvs.lookup "action").getD (.vStr ""))
    (.vDict ps) hhash
  obtain ⟨s, hs⟩ := summarize_dict l
  obtain ⟨viz2, hv⟩ := vizTrack_dict ((kvs.lookup "action").getD (.vStr "")) l viz
  rw [stepBody]
  simp only [pyGet, hps, printStepCheck_dict, ite_self, hact, Bool.false_eq_true, if_false,
    hl, hs, printResultCheck_dict, hv]
  exact ⟨s, .vDict l, viz2, rfl⟩

/-- C6: tool dispatch is a total boundary: an unregistered name yields a
status-"error" result whose message contains "not found"; a handler
exception is caught and converted to a status-"error" result containing
the exception message; with the repository's dict-returning tools every
dispatch on a string name returns a result dictionary (never raises); and
after such an error result the loop body completes normally, continuing to
the next iteration instead of aborting. -/
theorem c6_execute_tool_boundary :
    (∀ (tools : List (String × ToolHandler)) (s : String) (params : PyVal),
        tools.lookup s = none →
        execute_tool tools (.vStr s) params
          = .ok (errResult ("Tool " ++ sQuote ++ s ++ sQuote ++ " not found"))
        ∧ containsStr ("Tool " ++ sQuote ++ s ++ sQuote ++ " not found") "not found")
    ∧ (∀ (tools : List (String × ToolHandler)) (s : String) (h : ToolHandler)
          (kvs : List (String × PyVal)) (e : PyErr),
        tools.lookup s = some h → h kvs = .error e →
        execute_tool tools (.vStr s) (.vDict kvs) = .ok (errResult ("Tool error: " ++ e.msg))
        ∧ containsStr ("Tool error: " ++ e.msg) e.msg)
    ∧ (∀ (tools : List (String × ToolHandler)) (s : String) (params : PyVal),
        toolsReturnDicts tools → ∃ l, execute_tool tools (.vStr s) params = .ok (.vDict l))
    ∧ (∀ (cfg : AgentCfg) (q : String) (iter : Nat) (kvs ps : List (String × PyVal))
          (mem : ConversationMemory) (viz hist : List PyVal),
        (kvs.lookup "parameters").getD (.vDict []) = .vDict ps →
        pyEqStr ((kvs.lookup "action").getD (.vStr "")) "DONE" = false →
        hashableVal ((kvs.lookup "action").getD (.vStr "")) = true →
        toolsReturnDicts cfg.tools →
        ∃ mem2 viz2 hist2, stepBody cfg q iter (.vDict kvs) mem viz hist
          = .ok (.next mem2 viz2 hist2 ((kvs.lookup "action").getD (.vStr ""), .vDict ps))) := by
  refine ⟨?_, ?_, ?_, ?_⟩
  · intro tools s params hl
    constructor
    · rw [execute_tool]
      simp [hl]
    · exact containsStr_append_right _ _ _ (by decide)
  · intro tools s h kvs e hl he
    constructor
    · rw [execute_tool]
      simp [hl, he]
    · exact containsStr_append_right _ _ _ (containsStr_refl _)
  · intro tools s params ht
    exact execute_tool_dict tools ht (.vStr s) params rfl
  · intro cfg q iter kvs ps mem viz hist hps hact hhash ht
    obtain ⟨summ, res, viz2, h⟩ := stepBody_next cfg q iter kvs ps mem viz hist hps hact hhash ht
    exact ⟨_, viz2, _, h⟩

/-- Witness for C6: an empty registry rejects "nope" with a "not found"
error result; a raising handler is converted to a "Tool error" result; a
dict-returning registry always yields dictionaries; and a loop step on an
unknown action continues with `.next`. -/
theorem c6_execute_tool_boundary_witness :
    (execute_tool [] (.vStr "nope") .vNone
        = .ok (errResult ("Tool " ++ sQuote ++ "nope" ++ sQuote ++ " not found"))
      ∧ containsStr ("Tool " ++ sQuote ++ "nope" ++ sQuote ++ " not found") "not found")
    ∧ (execute_tool [("boom", fun _ => .error (runtimeErr "exploded"))] (.vStr "boom") (.vDict [])
        = .ok (errResult ("Tool error: " ++ (runtimeErr "exploded").msg))
      ∧ containsStr ("Tool error: " ++ (runtimeErr "exploded").msg) (runtimeErr "exploded").msg)
    ∧ (∃ l, execute_tool [("ok_tool", fun _ => .ok (.vDict [("status", .vStr "success")]))]
        (.vStr "ghost") .vNone = .ok (.vDict l))
    ∧ (∃ mem2 viz2 hist2,
        stepBody ⟨1, false, 2, 3, [("ok_tool", fun _ => .ok (.vDict [("status", .vStr "success")]))],
            fun _ _ => .ok .vNone⟩ "q" 1
          (.vDict [("thought", .vStr "t"), ("action", .vStr "ghost"), ("parameters", .vDict [])])
          (ConversationMemory.mkEmpty 50) [] []
        = .ok (.next mem2 viz2 hist2
            ((([("thought", .vStr "t"), ("action", .vStr "ghost"), ("parameters", .vDict [])] :
                List (String × PyVal)).lookup "action").getD (.vStr ""), .vDict []))) := by
  have hdicts : toolsReturnDicts [("ok_tool", fun _ => .ok (.vDict [("status", .vStr "success")]))] := by
    intro nm h hm kvs v hv
    rw [List.mem_singleton] at hm
    have h2 : h = fun _ => (.ok (.vDict [("status", .vStr "success")]) : Except PyErr PyVal) :=
      congrArg Prod.snd hm
    subst h2
    exact ⟨_, (Except.ok.inj hv).symm⟩
  refine ⟨?_, ?_, ?_, ?_⟩
  · exact c6_execute_tool_boundary.1 [] "nope" .vNone rfl
  · exact c6_execute_tool_boundary.2.1 [("boom", fun _ => .error (runtimeErr "exploded"))]
      "boom" (fun _ => .error (runtimeErr "exploded")) [] (runtimeErr "exploded") rfl rfl
  · exact c6_execute_tool_boundary.2.2.1 _ "ghost" .vNone hdicts
  · exact c6_execute_tool_boundary.2.2.2 _ "q" 1 _ [] (ConversationMemory.mkEmpty 50) [] []
      rfl rfl rfl hdicts

/-! ## C7 -/

lemma build_context_prompt_empty (maxT : Nat) (q : String) (i m : Nat) :
    ∃ s, build_context_prompt (ConversationMemory.mkEmpty maxT) q i m = .ok s :=
  ⟨_, rfl⟩

lemma stepBody_done_missing (cfg : AgentCfg) (q : String) (iter : Nat) (th : PyVal)
    (ps : List (String × PyVal)) (mem : ConversationMemory) (viz hist : List PyVal)
    (h3 : pyTruthy ((ps.lookup "answer").getD (.vStr "")) = false) :
    stepBody cfg q iter
        (.vDict [("thought", th), ("action", .vStr "DONE"), ("parameters", .vDict ps)])
        mem viz hist
      = .ok (.done (errorRunResult "Agent finished without answer" iter)) := by
  rw [stepBody]
  simp [pyGet, List.lookup, printStepCheck_dict, pyEqStr, h3]

/-- C7: a `DONE` decision whose parameters lack a truthy `answer` (and with
no top-level answer copied in by the gateway) makes `run` return the
"Agent finished without answer" error at that iteration: no tool is
dispatched (empty dispatch log) and no further iteration occurs. -/
theorem c7_done_missing_answer (cfg : AgentCfg) (q : String) (th : PyVal)
    (ps : List (String × PyVal))
    (h1 : 1 ≤ cfg.maxIterations)
    (h2 : (call_llm_with_retry cfg.retryDelay cfg.maxRetries (cfg.oracle 1)).1
        = .ok (.vDict [("thought", th), ("action", .vStr "DONE"), ("parameters", .vDict ps)]))
    (h3 : pyTruthy ((ps.lookup "answer").getD (.vStr "")) = false) :
    DataAnalyticsAgent.run cfg (ConversationMemory.mkEmpty 50) q
      = (.ok (errorRunResult "Agent finished without answer" 1), []) := by
  obtain ⟨k, hk⟩ : ∃ k, cfg.maxIterations = k + 1 := ⟨cfg.maxIterations - 1, by omega⟩
  obtain ⟨bp, hbp⟩ := build_context_prompt_empty 50 q (0 + 1) cfg.maxIterations
  rw [DataAnalyticsAgent.run, hk, runLoop, hbp, h2]
  simp only [stepBody_done_missing cfg q (0 + 1) th ps (ConversationMemory.mkEmpty 50) [] [] h3,
    Nat.zero_add]

/-- Witness for C7: a concrete agent whose model answers `DONE` with empty
parameters. -/
theorem c7_done_missing_answer_witness :
    DataAnalyticsAgent.run
        ⟨5, true, 2, 3, [],
         fun _ _ => .ok (.vDict [("thought", .vStr "t"), ("action", .vStr "DONE"),
           ("parameters", .vDict [])])⟩
        (ConversationMemory.mkEmpty 50) "q"
      = (.ok (errorRunResult "Agent finished without answer" 1), []) := by
  exact c7_done_missing_answer _ "q" (.vStr "t") [] (by decide) rfl rfl

/-! ## C10 -/

lemma lookup_append_of_no_key (ps : List (String × PyVal)) (k : String) (x : PyVal)
    (h : hasKey ps k = false) : (ps ++ [(k, x)]).lookup k = some x := by
  induction ps with
  | nil => simp [List.lookup]
  | cons p t ih =>
    obtain ⟨pk, pv⟩ := p
    rw [hasKey, List.any_cons] at h
    simp only [Bool.or_eq_false_iff] at h
    rw [List.cons_append, List.lookup_cons]
    have hkp : (k == pk) = false := by
      cases hb : (k == pk) with
      | false => rfl
      | true =>
        rw [beq_iff_eq] at hb
        subst hb
        simp at h
    rw [hkp]
    simp only [Bool.false_eq_true, if_false]
    exact ih h.2

lemma callLLM_copy (th ans : PyVal) (ps : List (String × PyVal))
    (h : hasKey ps "answer" = false) :
    call_llm (.ok (.vDict [("thought", th), ("action", .vStr "DONE"),
        ("parameters", .vDict ps), ("answer", ans)]))
      = .ok (.vDict [("thought", th), ("action", .vStr "DONE"),
          ("parameters", .vDict (ps ++ [("answer", ans)])), ("answer", ans)]) := by
  have h2 : ps.any (fun p => p.1 == "answer") = false := h
  rw [call_llm]
  simp [callLLMInner, callLLMValidate, callLLMDone, pyContains, pyGetItem, pySetItem,
    dictSet, hasKey, pyEqStr, List.lookup, h2]

lemma retry_first_ok (delay : ℚ) (m : Nat) (oracle : Nat → Except PyErr PyVal) (v : PyVal)
    (h1 : 1 ≤ m) (h2 : call_llm (oracle 0) = .ok v) :
    (call_llm_with_retry delay m oracle).1 = .ok v := by
  obtain ⟨k, rfl⟩ : ∃ k, m = k + 1 := ⟨m - 1, by omega⟩
  rw [call_llm_with_retry, retryFrom, h2]

lemma stepBody_done_success (cfg : AgentCfg) (q : String) (iter : Nat) (th ans answ : PyVal)
    (ps2 : List (String × PyVal)) (mem : ConversationMemory) (viz hist : List PyVal)
    (hans : (ps2.lookup "answer").getD (.vStr "") = answ)
    (htr : pyTruthy answ = true) :
    stepBody cfg q iter (.vDict [("thought", th), ("action", .vStr "DONE"),
        ("parameters", .vDict ps2), ("answer", ans)]) mem viz hist
      = .ok (.done (successRunResult answ viz iter hist)) := by
  rw [stepBody]
  simp [pyGet, List.lookup, printStepCheck_dict, pyEqStr, hans, htr]

/-- C10 (implicit): when the parsed response has action `DONE`, a top-level
`answer`, and a parameters mapping lacking `answer`, `_call_llm` copies the
top-level answer into `parameters["answer"]`, and `run` accepts the
decision as a valid terminal decision, returning status "success" with that
answer when it is non-empty. -/
theorem c10_top_level_answer_copy (cfg : AgentCfg) (q : String) (th ans : PyVal)
    (ps : List (String × PyVal)) (a : String) :
    (hasKey ps "answer" = false →
      call_llm (.ok (.vDict [("thought", th), ("action", .vStr "DONE"),
          ("parameters", .vDict ps), ("answer", ans)]))
        = .ok (.vDict [("thought", th), ("action", .vStr "DONE"),
            ("parameters", .vDict (ps ++ [("answer", ans)])), ("answer", ans)]))
    ∧ (1 ≤ cfg.maxIterations → 1 ≤ cfg.maxRetries →
        cfg.oracle 1 0 = .ok (.vDict [("thought", th), ("action", .vStr "DONE"),
          ("parameters", .vDict ps), ("answer", .vStr a)]) →
        hasKey ps "answer" = false → a ≠ "" →
        DataAnalyticsAgent.run cfg (ConversationMemory.mkEmpty 50) q
          = (.ok (successRunResult (.vStr a) [] 1 []), [])) := by
  constructor
  · exact callLLM_copy th ans ps
  · intro h1 h2 h4 h5 h6
    obtain ⟨k, hk⟩ : ∃ k, cfg.maxIterations = k + 1 := ⟨cfg.maxIterations - 1, by omega⟩
    have hcl : call_llm (cfg.oracle 1 0) = .ok (.vDict [("thought", th),
        ("action", .vStr "DONE"),
        ("parameters", .vDict (ps ++ [("answer", .vStr a)])), ("answer", .vStr a)]) := by
      rw [h4]
      exact callLLM_copy th (.vStr a) ps h5
    have hllm := retry_first_ok cfg.retryDelay cfg.maxRetries (cfg.oracle 1) _ h2 hcl
    obtain ⟨bp, hbp⟩ := build_context_prompt_empty 50 q (0 + 1) cfg.maxIterations
    have hans : ((ps ++ [("answer", PyVal.vStr a)]).lookup "answer").getD (PyVal.vStr "")
        = PyVal.vStr a := by
      rw [lookup_append_of_no_key ps "answer" (PyVal.vStr a) h5]
      rfl
    have htr : pyTruthy (PyVal.vStr a) = true := by simp [pyTruthy, h6]
    rw [DataAnalyticsAgent.run, hk, runLoop, hbp, hllm]
    simp only [stepBody_done_success cfg q 1 th (PyVal.vStr a) (PyVal.vStr a)
      (ps ++ [("answer", PyVal.vStr a)]) (ConversationMemory.mkEmpty 50) [] [] hans htr,
      Nat.zero_add]

/-- Witness for C10: a concrete model response with a top-level answer and
empty parameters is accepted and `run` succeeds with that answer. -/
theorem c10_top_level_answer_copy_witness :
    (call_llm (.ok (.vDict [("thought", .vStr "t"), ("action", .vStr "DONE"),
        ("parameters", .vDict []), ("answer", .vStr "forty-two")]))
      = .ok (.vDict [("thought", .vStr "t"), ("action", .vStr "DONE"),
          ("parameters", .vDict ([] ++ [("answer", .vStr "forty-two")])),
          ("answer", .vStr "forty-two")]))
    ∧ DataAnalyticsAgent.run
        ⟨20, true, 2, 3, [],
         fun _ _ => .ok (.vDict [("thought", .vStr "t"), ("action", .vStr "DONE"),
           ("parameters", .vDict []), ("answer", .vStr "forty-two")])⟩
        (ConversationMemory.mkEmpty 50) "q"
      = (.ok (successRunResult (.vStr "forty-two") [] 1 []), []) := by
  constructor
  · exact (c10_top_level_answer_copy
      ⟨20, true, 2, 3, [],
       fun _ _ => .ok (.vDict [("thought", .vStr "t"), ("action", .vStr "DONE"),
         ("parameters", .vDict []), ("answer", .vStr "forty-two")])⟩
      "q" (.vStr "t") (.vStr "forty-two") [] "forty-two").1 rfl
  · exact (c10_top_level_answer_copy _ "q" (.vStr "t") (.vStr "forty-two") [] "forty-two").2
      (by decide) (by decide) rfl rfl (by decide)

/-! ## C8 -/

set_option maxRecDepth 8000 in
/-- C8 counterexample: a decision payload that is valid JSON but lacks
`action`, whose string rendering contains "quota", is classified as
retryable; after the retry budget the run result is byte-for-byte identical
to the result of genuine rate-limit exhaustion, so the error is not
distinguishable from a gateway failure. -/
theorem c8_indistinguishable_counterexample :
    DataAnalyticsAgent.run protocolFailCfg (ConversationMemory.mkEmpty 50) "q"
      = DataAnalyticsAgent.run rateLimitCfg (ConversationMemory.mkEmpty 50) "q"
    ∧ DataAnalyticsAgent.run protocolFailCfg (ConversationMemory.mkEmpty 50) "q"
      = (.ok (errorRunResult ("LLM error: " ++ rateLimitExhaustedMsg 3) 1), []) := by
  constructor <;> rfl

lemma callLLM_missing (kvs : List (String × PyVal))
    (h4 : hasKey kvs "thought" = false ∨ hasKey kvs "action" = false) :
    call_llm (.ok (.vDict kvs))
      = .error (runtimeErr ("LLM error: "
          ++ ("Missing fields: " ++ pyStrTop (.vDict kvs)))) := by
  have hval : callLLMValidate (.vDict kvs) = .ok false := by
    rw [callLLMValidate]
    simp only [pyContains]
    rcases h4 with h | h
    · simp [h]
    · cases ht : hasKey kvs "thought" with
      | false => simp
      | true => simp [h]
  rw [call_llm]
  simp only [callLLMInner, hval, Bool.not_false, if_true]
  rfl

lemma retry_first_fatal (delay : ℚ) (m : Nat) (oracle : Nat → Except PyErr PyVal) (e : PyErr)
    (h1 : 1 ≤ m) (h2 : call_llm (oracle 0) = .error e) (h3 : isRetryable e.msg = false) :
    (call_llm_with_retry delay m oracle).1 = .error e := by
  obtain ⟨k, rfl⟩ : ∃ k, m = k + 1 := ⟨m - 1, by omega⟩
  rw [call_llm_with_retry, retryFrom, h2]
  simp [h3]

set_option maxRecDepth 8000 in
/-- C8 amended: when the malformed payload's rendering contains none of the
rate-limit substrings, a response missing `thought` or `action` aborts the
run at that iteration, before any tool dispatch, with an error message
containing "Missing fields" — which the rate-limit-exhaustion message does
not contain, so the two failures are distinguishable.  (Without that
proviso the counterexample shows the two failures can be identical.) -/
theorem c8_protocol_error_amended (cfg : AgentCfg) (q : String)
    (kvs : List (String × PyVal))
    (h1 : 1 ≤ cfg.maxIterations) (h2 : 1 ≤ cfg.maxRetries)
    (h3 : cfg.oracle 1 0 = .ok (.vDict kvs))
    (h4 : hasKey kvs "thought" = false ∨ hasKey kvs "action" = false)
    (h5 : isRetryable ("LLM error: " ++ ("Missing fields: " ++ pyStrTop (.vDict kvs))) = false) :
    DataAnalyticsAgent.run cfg (ConversationMemory.mkEmpty 50) q
      = (.ok (errorRunResult ("LLM error: " ++ ("LLM error: "
          ++ ("Missing fields: " ++ pyStrTop (.vDict kvs)))) 1), [])
    ∧ containsStr ("LLM error: " ++ ("LLM error: "
        ++ ("Missing fields: " ++ pyStrTop (.vDict kvs)))) "Missing fields"
    ∧ ¬ containsStr ("LLM error: " ++ rateLimitExhaustedMsg 3) "Missing fields" := by
  refine ⟨?_, ?_, by decide⟩
  · obtain ⟨k, hk⟩ : ∃ k, cfg.maxIterations = k + 1 := ⟨cfg.maxIterations - 1, by omega⟩
    have hcl : call_llm (cfg.oracle 1 0) = .error (runtimeErr ("LLM error: "
        ++ ("Missing fields: " ++ pyStrTop (.vDict kvs)))) := by
      rw [h3]
      exact callLLM_missing kvs h4
    have hgate := retry_first_fatal cfg.retryDelay cfg.maxRetries (cfg.oracle 1) _ h2 hcl h5
    obtain ⟨bp, hbp⟩ := build_context_prompt_empty 50 q (0 + 1) cfg.maxIterations
    rw [DataAnalyticsAgent.run, hk, runLoop, hbp, hgate]
    rfl
  · exact containsStr_append_right _ _ _ (containsStr_append_right _ _ _
      (containsStr_append_left _ _ _ (by decide)))

/-- Witness for C8 amended: a payload missing `action` with no rate-limit
substring yields the distinguishable "Missing fields" error. -/
theorem c8_protocol_error_amended_witness :
    (DataAnalyticsAgent.run ⟨1, false, 2, 3, [],
        fun _ _ => .ok (.vDict [("thought", .vStr "t")])⟩ (ConversationMemory.mkEmpty 50) "q"
      = (.ok (errorRunResult ("LLM error: " ++ ("LLM error: "
          ++ ("Missing fields: " ++ pyStrTop (.vDict [("thought", .vStr "t")])))) 1), []))
    ∧ containsStr ("LLM error: " ++ ("LLM error: "
        ++ ("Missing fields: " ++ pyStrTop (.vDict [("thought", .vStr "t")])))) "Missing fields"
    ∧ ¬ containsStr ("LLM error: " ++ rateLimitExhaustedMsg 3) "Missing fields" := by
  exact c8_protocol_error_amended ⟨1, false, 2, 3, [],
      fun _ _ => .ok (.vDict [("thought", .vStr "t")])⟩ "q" [("thought", .vStr "t")]
    (by decide) (by decide) rfl (Or.inr (by decide)) (by decide)

/-! ## C1 -/

lemma stepBody_done_or_next (cfg : AgentCfg) (q : String) (iter : Nat)
    (kvs ps : List (String × PyVal)) (mem : ConversationMemory) (viz hist : List PyVal)
    (hps : (kvs.lookup "parameters").getD (.vDict []) = .vDict ps)
    (hhash : hashableVal ((kvs.lookup "action").getD (.vStr "")) = true)
    (ht : toolsReturnDicts cfg.tools) :
    (∃ r, stepBody cfg q iter (.vDict kvs) mem viz hist = .ok (.done r)
       ∧ (r = errorRunResult "Agent finished without answer" iter
          ∨ ∃ a, r = successRunResult a viz iter hist))
    ∨ (∃ mem2 viz2 hist2 call,
        stepBody cfg q iter (.vDict kvs) mem viz hist = .ok (.next mem2 viz2 hist2 call)) := by
  by_cases hact : pyEqStr ((kvs.lookup "action").getD (.vStr "")) "DONE" = true
  · left
    rw [stepBody]
    simp only [pyGet, hps, printStepCheck_dict, ite_self, hact, if_true]
    by_cases htr : pyTruthy ((ps.lookup "answer").getD (.vStr "")) = true
    · refine ⟨successRunResult ((ps.lookup "answer").getD (.vStr "")) viz iter hist,
        by simp [htr], Or.inr ⟨_, rfl⟩⟩
    · rw [Bool.not_eq_true] at htr
      refine ⟨errorRunResult "Agent finished without answer" iter,
        by simp [htr], Or.inl rfl⟩
  · right
    rw [Bool.not_eq_true] at hact
    obtain ⟨summ, res, viz2, hs⟩ := stepBody_next cfg q iter kvs ps mem viz hist hps hact hhash ht
    exact ⟨_, viz2, _, _, hs⟩

lemma runLoop_succ_unfold (cfg : AgentCfg) (q : String) (f iterDone : Nat)
    (mem : ConversationMemory) (viz hist : List PyVal) (calls : List (PyVal × PyVal))
    (bp : String) (d : PyVal)
    (hbp : build_context_prompt mem q (iterDone + 1) cfg.maxIterations = .ok bp)
    (hllm : (call_llm_with_retry cfg.retryDelay cfg.maxRetries
        (cfg.oracle (iterDone + 1))).1 = .ok d) :
    runLoop cfg q (f + 1) iterDone mem viz hist calls
      = (match stepBody cfg q (iterDone + 1) d mem viz hist with
         | .error e => (.error e, calls)
         | .ok (.done r) => (.ok r, calls)
         | .ok (.next mem2 viz2 hist2 call) =>
             runLoop cfg q f (iterDone + 1) mem2 viz2 hist2 (calls ++ [call])) := by
  rw [runLoop, hbp, hllm]

lemma runLoop_hasStatus (cfg : AgentCfg) (q : String)
    (hg : gatewayDecisionsOk cfg) (ht : toolsReturnDicts cfg.tools) :
    ∀ fuel iterDone mem viz hist calls,
      ∃ kvs, (runLoop cfg q fuel iterDone mem viz hist calls).1 = .ok (.vDict kvs)
        ∧ hasKey kvs "status" = true := by
  intro fuel
  induction fuel with
  | zero => intro iterDone mem viz hist calls; exact ⟨_, rfl, rfl⟩
  | succ f ih =>
    intro iterDone mem viz hist calls
    cases hbp : build_context_prompt mem q (iterDone + 1) cfg.maxIterations with
    | error e =>
      rw [runLoop, hbp]
      exact ⟨_, rfl, rfl⟩
    | ok bp =>
      cases hllm : (call_llm_with_retry cfg.retryDelay cfg.maxRetries
          (cfg.oracle (iterDone + 1))).1 with
      | error e =>
        rw [runLoop, hbp, hllm]
        exact ⟨_, rfl, rfl⟩
      | ok d =>
        obtain ⟨kvs, rfl, ⟨ps, hps⟩, hhash⟩ := hg (iterDone + 1) d hllm
        rw [runLoop_succ_unfold cfg q f iterDone mem viz hist calls bp (PyVal.vDict kvs)
          hbp hllm]
        rcases stepBody_done_or_next cfg q (iterDone + 1) kvs ps mem viz hist hps hhash ht with
          ⟨r, hstep, hr⟩ | ⟨m2, v2, h2, c, hstep⟩
        · rw [hstep]
          rcases hr with rfl | ⟨a, rfl⟩
          · exact ⟨_, rfl, rfl⟩
          · exact ⟨_, rfl, rfl⟩
        · rw [hstep]
          exact ih (iterDone + 1) m2 v2 h2 (calls ++ [c])

set_option maxRecDepth 8000 in
/-- C1 counterexample: a decision with action `DONE` and a non-mapping
`parameters` value reaches `parameters.get("answer", "")` at line 118 of
agent.py and the AttributeError propagates out of `run()` — no structured
result is returned. -/
theorem c1_exception_escape_counterexample :
    (DataAnalyticsAgent.run nonMappingParamsCfg (ConversationMemory.mkEmpty 50) "q").1
      = .error (attrErr ("object has no attribute " ++ sQuote ++ "get" ++ sQuote)) := by
  rfl

/-- C1 amended: `run` returns a dictionary with a "status" key — for every
model behaviour and tool behaviour such that each gateway-returned decision
has a mapping `parameters` value and a hashable `action` value, and each
tool handler returns a dictionary when it returns normally (handlers may
raise freely; the repository's tools satisfy both conditions).  Without the
provisos an exception can escape `run()`, as the counterexample shows. -/
theorem c1_run_structured_amended (cfg : AgentCfg) (mem0 : ConversationMemory) (q : String)
    (hg : gatewayDecisionsOk cfg) (ht : toolsReturnDicts cfg.tools) :
    ∃ kvs, (DataAnalyticsAgent.run cfg mem0 q).1 = .ok (.vDict kvs)
      ∧ hasKey kvs "status" = true := by
  exact runLoop_hasStatus cfg q hg ht cfg.maxIterations 0 mem0 [] [] []

set_option maxRecDepth 8000 in
/-- Witness for C1 amended at a concrete agent. -/
theorem c1_run_structured_amended_witness :
    ∃ kvs, (DataAnalyticsAgent.run c1WitnessCfg (ConversationMemory.mkEmpty 50) "q").1
      = .ok (.vDict kvs) ∧ hasKey kvs "status" = true := by
  apply c1_run_structured_amended c1WitnessCfg (ConversationMemory.mkEmpty 50) "q"
  · intro i d h
    have h2 : (Except.ok (PyVal.vDict [("thought", PyVal.vStr "t"),
        ("action", PyVal.vStr "DONE"),
        ("parameters", PyVal.vDict [("answer", PyVal.vStr "done")])]) :
          Except PyErr PyVal) = .ok d := h
    obtain rfl := Except.ok.inj h2
    exact ⟨_, rfl, ⟨_, rfl⟩, rfl⟩
  · intro nm hh hm
    simp [c1WitnessCfg] at hm

/-! ## C2 -/

lemma pySlice200_ok (v : PyVal) (h : sliceableVal v = true) :
    ∃ s, pySlice200 v = .ok s := by
  cases v with
  | vStr s => exact ⟨_, rfl⟩
  | vList xs => exact ⟨_, rfl⟩
  | vNone => simp [sliceableVal] at h
  | vBool b => simp [sliceableVal] at h
  | vInt n => simp [sliceableVal] at h
  | vDict kvs => simp [sliceableVal] at h

lemma renderTurn_ok (i : Nat) (t : Turn) (h : sliceableVal t.thought = true) :
    ∃ s, renderTurn i t = .ok s := by
  obtain ⟨s1, hs1⟩ := pySlice200_ok t.thought h
  rw [renderTurn, hs1]
  exact ⟨_, rfl⟩

lemma renderTurns_ok (ts : List Turn) :
    ∀ i, (∀ t ∈ ts, sliceableVal t.thought = true) → ∃ s, renderTurns i ts = .ok s := by
  induction ts with
  | nil => intro i _; exact ⟨_, rfl⟩
  | cons t ts ih =>
    intro i hall
    obtain ⟨s1, hs1⟩ := renderTurn_ok i t (hall t (List.mem_cons_self _ _))
    obtain ⟨s2, hs2⟩ := ih (i + 1) (fun u hu => hall u (List.mem_cons_of_mem _ hu))
    rw [renderTurns, hs1, hs2]
    exact ⟨_, rfl⟩

lemma mem_recentSel (t : Turn) (ts : List Turn) (n : Nat) (h : t ∈ recentSel ts n) :
    t ∈ ts := by
  rw [recentSel] at h
  split at h
  · exact h
  · exact List.mem_of_mem_drop h

lemma get_recent_context_ok (m : ConversationMemory) (n : Nat)
    (h : ∀ t ∈ m.turns, sliceableVal t.thought = true) :
    ∃ s, m.get_recent_context n = .ok s := by
  rw [ConversationMemory.get_recent_context]
  by_cases he : m.turns.isEmpty = true
  · rw [if_pos he]
    exact ⟨_, rfl⟩
  · rw [if_neg he]
    obtain ⟨s, hs⟩ := renderTurns_ok (recentSel m.turns n) 1
      (fun t htm => h t (mem_recentSel t m.turns n htm))
    rw [hs]
    exact ⟨_, rfl⟩

lemma build_context_prompt_ok (mem : ConversationMemory) (q : String) (i mx : Nat)
    (h : ∀ t ∈ mem.turns, sliceableVal t.thought = true) :
    ∃ s, build_context_prompt mem q i mx = .ok s := by
  obtain ⟨s, hs⟩ := get_recent_context_ok mem 3 h
  rw [build_context_prompt, hs]
  exact ⟨_, rfl⟩

lemma mem_add_turn (m : ConversationMemory) (t u : Turn)
    (h : u ∈ (m.add_turn t).turns) : u ∈ m.turns ∨ u = t := by
  simp only [ConversationMemory.add_turn] at h
  have h2 := List.mem_of_mem_drop h
  rw [List.mem_append] at h2
  rcases h2 with h2 | h2
  · exact Or.inl h2
  · rw [List.mem_singleton] at h2
    exact Or.inr h2

lemma runLoop_budget (cfg : AgentCfg) (q : String) (ht : toolsReturnDicts cfg.tools) :
    ∀ fuel iterDone mem viz hist calls,
      (∀ t ∈ mem.turns, sliceableVal t.thought = true) →
      (∀ i, iterDone < i → i ≤ iterDone + fuel →
        ∃ d, (call_llm_with_retry cfg.retryDelay cfg.maxRetries (cfg.oracle i)).1 = .ok d
          ∧ nonTerminalDecision d) →
      ∃ hist2 calls2, runLoop cfg q fuel iterDone mem viz hist calls
        = (.ok (budgetRunResult cfg.maxIterations (iterDone + fuel) hist2), calls2) := by
  intro fuel
  induction fuel with
  | zero =>
    intro iterDone mem viz hist calls _ _
    exact ⟨hist, calls, by rw [runLoop, Nat.add_zero]⟩
  | succ f ih =>
    intro iterDone mem viz hist calls hmem horacle
    obtain ⟨d, hgate, kvs, rfl, ⟨ps, hps⟩, hact, hhash, hth⟩ :=
      horacle (iterDone + 1) (by omega) (by omega)
    obtain ⟨bp, hbp⟩ := build_context_prompt_ok mem q (iterDone + 1) cfg.maxIterations hmem
    obtain ⟨summ, res, viz2, hstep⟩ := stepBody_next cfg q (iterDone + 1) kvs ps mem viz hist
      hps hact hhash ht
    obtain ⟨hist2, calls2, hrec⟩ := ih (iterDone + 1)
      (mem.add_turn ⟨q, (kvs.lookup "thought").getD (.vStr ""),
        (kvs.lookup "action").getD (.vStr ""), .vDict ps, summ⟩)
      viz2
      (hist ++ [histEntry (iterDone + 1) ((kvs.lookup "thought").getD (.vStr ""))
        ((kvs.lookup "action").getD (.vStr "")) (.vDict ps) res])
      (calls ++ [((kvs.lookup "action").getD (.vStr ""), .vDict ps)])
      (by
        intro t htm
        rcases mem_add_turn _ _ _ htm with hold | rfl
        · exact hmem t hold
        · exact hth)
      (fun i h1 h2 => horacle i (by omega) (by omega))
    refine ⟨hist2, calls2, ?_⟩
    rw [runLoop_succ_unfold cfg q f iterDone mem viz hist calls bp (.vDict kvs) hbp hgate,
      hstep]
    have heq : iterDone + 1 + f = iterDone + (f + 1) := by omega
    rw [heq] at hrec
    exact hrec

lemma stepBody_done_iter (cfg : AgentCfg) (q : String) (iter : Nat) (resp : PyVal)
    (mem : ConversationMemory) (viz hist : List PyVal) (r : PyVal)
    (h : stepBody cfg q iter resp mem viz hist = .ok (.done r)) :
    ∃ kvs, r = .vDict kvs ∧ kvs.lookup "iterations" = some (.vInt iter) := by
  rw [stepBody] at h
  repeat' split at h
  all_goals try (cases h)
  all_goals exact ⟨_, rfl, rfl⟩

lemma runLoop_iterations (cfg : AgentCfg) (q : String) :
    ∀ fuel iterDone mem viz hist calls v,
      (runLoop cfg q fuel iterDone mem viz hist calls).1 = .ok v →
      ∃ kvs, ∃ k : Nat, v = .vDict kvs ∧ kvs.lookup "iterations" = some (.vInt k)
        ∧ k ≤ iterDone + fuel := by
  intro fuel
  induction fuel with
  | zero =>
    intro iterDone mem viz hist calls v h
    rw [runLoop] at h
    have h2 : (Except.ok (budgetRunResult cfg.maxIterations iterDone hist) :
        Except PyErr PyVal) = .ok v := h
    obtain rfl := Except.ok.inj h2
    exact ⟨_, iterDone, rfl, rfl, by omega⟩
  | succ f ih =>
    intro iterDone mem viz hist calls v h
    cases hbp : build_context_prompt mem q (iterDone + 1) cfg.maxIterations with
    | error e =>
      rw [runLoop, hbp] at h
      have h2 : (Except.ok (errorRunResult ("Prompt error: " ++ e.msg) (iterDone + 1)) :
          Except PyErr PyVal) = .ok v := h
      obtain rfl := Except.ok.inj h2
      exact ⟨_, iterDone + 1, rfl, rfl, by omega⟩
    | ok bp =>
      cases hllm : (call_llm_with_retry cfg.retryDelay cfg.maxRetries
          (cfg.oracle (iterDone + 1))).1 with
      | error e =>
        rw [runLoop, hbp, hllm] at h
        have h2 : (Except.ok (errorRunResult ("LLM error: " ++ e.msg) (iterDone + 1)) :
            Except PyErr PyVal) = .ok v := h
        obtain rfl := Except.ok.inj h2
        exact ⟨_, iterDone + 1, rfl, rfl, by omega⟩
      | ok d =>
        rw [runLoop_succ_unfold cfg q f iterDone mem viz hist calls bp d hbp hllm] at h
        cases hstep : stepBody cfg q (iterDone + 1) d mem viz hist with
        | error e =>
          rw [hstep] at h
          cases h
        | ok so =>
          cases so with
          | done r =>
            rw [hstep] at h
            obtain rfl := Except.ok.inj h
            obtain ⟨kvs, rfl, hlook⟩ := stepBody_done_iter cfg q (iterDone + 1) d mem viz hist r hstep
            exact ⟨kvs, iterDone + 1, rfl, hlook, by omega⟩
          | next m2 v2 h2 c =>
            rw [hstep] at h
            obtain ⟨kvs, k, rfl, hlook, hle⟩ := ih (iterDone + 1) m2 v2 h2 (calls ++ [c]) v h
            exact ⟨kvs, k, rfl, hlook, by omega⟩

/-- C2: every result `run` returns carries an `iterations` count bounded by
`max_iterations` (the loop is a bounded fuel recursion, so termination is
by construction); when, for an arbitrary iteration budget, the gateway
produces in every one of the `max_iterations` iterations a decision whose
action is not `DONE` (well shaped, so no prompt or gateway error aborts
earlier), `run` returns the budget-exhaustion result — status "error" with
iterations equal to `max_iterations`; and in the particular scenario
`max_iterations = 1` with a first decision choosing any registered tool,
`run` returns that error with iterations 1 after dispatching exactly that
one tool call. -/
theorem c2_iteration_budget (cfg : AgentCfg) (mem0 : ConversationMemory) (q : String) :
    (∀ v, (DataAnalyticsAgent.run cfg mem0 q).1 = .ok v →
      ∃ kvs, ∃ k : Nat, v = .vDict kvs ∧ kvs.lookup "iterations" = some (.vInt k)
        ∧ k ≤ cfg.maxIterations)
    ∧ (toolsReturnDicts cfg.tools →
        (∀ i, 1 ≤ i → i ≤ cfg.maxIterations →
          ∃ d, (call_llm_with_retry cfg.retryDelay cfg.maxRetries (cfg.oracle i)).1 = .ok d
            ∧ nonTerminalDecision d) →
        ∃ hist calls, DataAnalyticsAgent.run cfg (ConversationMemory.mkEmpty 50) q
          = (.ok (budgetRunResult cfg.maxIterations cfg.maxIterations hist), calls))
    ∧ (∀ (th : PyVal) (name : String) (ps : List (String × PyVal)) (hh : ToolHandler),
        cfg.maxIterations = 1 → toolsReturnDicts cfg.tools →
        (call_llm_with_retry cfg.retryDelay cfg.maxRetries (cfg.oracle 1)).1
          = .ok (.vDict [("thought", th), ("action", .vStr name), ("parameters", .vDict ps)]) →
        cfg.tools.lookup name = some hh → name ≠ "DONE" →
        ∃ hist, DataAnalyticsAgent.run cfg (ConversationMemory.mkEmpty 50) q
          = (.ok (budgetRunResult 1 1 hist), [(.vStr name, .vDict ps)])) := by
  refine ⟨?_, ?_, ?_⟩
  · intro v h
    obtain ⟨kvs, k, rfl, hlook, hle⟩ :=
      runLoop_iterations cfg q cfg.maxIterations 0 mem0 [] [] [] v h
    exact ⟨kvs, k, rfl, hlook, by omega⟩
  · intro ht horacle
    obtain ⟨hist2, calls2, hrun⟩ := runLoop_budget cfg q ht cfg.maxIterations 0
      (ConversationMemory.mkEmpty 50) [] [] []
      (by intro t htm; simp [ConversationMemory.mkEmpty] at htm)
      (fun i h1 h2 => horacle i (by omega) (by omega))
    rw [Nat.zero_add] at hrun
    exact ⟨hist2, calls2, by rw [DataAnalyticsAgent.run]; exact hrun⟩
  · intro th name ps hh hmax ht hgate hlookup hname
    have hact : pyEqStr ((([("thought", th), ("action", PyVal.vStr name),
        ("parameters", PyVal.vDict ps)] : List (String × PyVal)).lookup "action").getD
        (PyVal.vStr "")) "DONE" = false := by
      simp [List.lookup, pyEqStr, hname]
    have hps : (([("thought", th), ("action", PyVal.vStr name),
        ("parameters", PyVal.vDict ps)] : List (String × PyVal)).lookup "parameters").getD
        (PyVal.vDict []) = PyVal.vDict ps := by
      simp [List.lookup]
    have hhash : hashableVal ((([("thought", th), ("action", PyVal.vStr name),
        ("parameters", PyVal.vDict ps)] : List (String × PyVal)).lookup "action").getD
        (PyVal.vStr "")) = true := by
      simp [List.lookup, hashableVal]
    obtain ⟨summ, res, viz2, hstep⟩ := stepBody_next cfg q 1
      [("thought", th), ("action", PyVal.vStr name), ("parameters", PyVal.vDict ps)] ps
      (ConversationMemory.mkEmpty 50) [] [] hps hact hhash ht
    obtain ⟨bp, hbp⟩ := build_context_prompt_empty 50 q (0 + 1) cfg.maxIterations
    refine ⟨[] ++ [histEntry 1
      ((([("thought", th), ("action", PyVal.vStr name), ("parameters", PyVal.vDict ps)] :
        List (String × PyVal)).lookup "thought").getD (PyVal.vStr ""))
      ((([("thought", th), ("action", PyVal.vStr name), ("parameters", PyVal.vDict ps)] :
        List (String × PyVal)).lookup "action").getD (PyVal.vStr ""))
      (PyVal.vDict ps) res], ?_⟩
    rw [DataAnalyticsAgent.run, hmax,
      runLoop_succ_unfold cfg q 0 0 (ConversationMemory.mkEmpty 50) [] [] [] bp
        (.vDict [("thought", th), ("action", PyVal.vStr name), ("parameters", PyVal.vDict ps)])
        hbp hgate]
    simp only [Nat.zero_add, hstep]
    rw [runLoop, hmax]
    rfl

set_option maxRecDepth 8000 in
/-- Witness for C2: the iterations bound on the scenario-B agent, the
general budget-exhaustion behaviour on a two-iteration never-`DONE` agent,
and the `max_iterations = 1` scenario. -/
theorem c2_iteration_budget_witness :
    (∃ kvs, ∃ k : Nat, budgetRunResult 1 1 c2WitnessHist = .vDict kvs
       ∧ kvs.lookup "iterations" = some (.vInt k) ∧ k ≤ c2WitnessCfg.maxIterations)
    ∧ (∃ hist calls, DataAnalyticsAgent.run c2BudgetWitnessCfg (ConversationMemory.mkEmpty 50) "q"
        = (.ok (budgetRunResult 2 2 hist), calls))
    ∧ (∃ hist, DataAnalyticsAgent.run c2WitnessCfg (ConversationMemory.mkEmpty 50) "q"
        = (.ok (budgetRunResult 1 1 hist), [(.vStr "list_datasets", .vDict [])])) := by
  have hdicts : toolsReturnDicts c2WitnessCfg.tools := by
    intro nm h hm kvs v hv
    rw [show c2WitnessCfg.tools = [("list_datasets", fun _ => .ok (.vDict [("status", .vStr "success"),
      ("result", .vStr "No datasets loaded.")]))] from rfl, List.mem_singleton] at hm
    have h2 : h = fun _ => (.ok (.vDict [("status", .vStr "success"),
        ("result", .vStr "No datasets loaded.")]) : Except PyErr PyVal) :=
      congrArg Prod.snd hm
    subst h2
    exact ⟨_, (Except.ok.inj hv).symm⟩
  have hdicts2 : toolsReturnDicts c2BudgetWitnessCfg.tools := by
    intro nm h hm kvs v hv
    rw [show c2BudgetWitnessCfg.tools = [("list_datasets", fun _ => .ok (.vDict [("status", .vStr "success"),
      ("result", .vStr "No datasets loaded.")]))] from rfl, List.mem_singleton] at hm
    have h2 : h = fun _ => (.ok (.vDict [("status", .vStr "success"),
        ("result", .vStr "No datasets loaded.")]) : Except PyErr PyVal) :=
      congrArg Prod.snd hm
    subst h2
    exact ⟨_, (Except.ok.inj hv).symm⟩
  refine ⟨?_, ?_, ?_⟩
  · exact (c2_iteration_budget c2WitnessCfg (ConversationMemory.mkEmpty 50) "q").1
      (budgetRunResult 1 1 c2WitnessHist) rfl
  · exact (c2_iteration_budget c2BudgetWitnessCfg (ConversationMemory.mkEmpty 50) "q").2.1
      hdicts2
      (fun i h1 h2 => ⟨.vDict [("thought", .vStr "t"), ("action", .vStr "list_datasets"),
        ("parameters", .vDict [])], rfl,
        [("thought", .vStr "t"), ("action", .vStr "list_datasets"), ("parameters", .vDict [])],
        rfl, ⟨[], rfl⟩, by decide, rfl, rfl⟩)
  · exact (c2_iteration_budget c2WitnessCfg (ConversationMemory.mkEmpty 50) "q").2.2
      (.vStr "t") "list_datasets" []
      (fun _ => .ok (.vDict [("status", .vStr "success"),
        ("result", .vStr "No datasets loaded.")]))
      rfl hdicts rfl rfl (by decide)
